import Mathlib

/-!
# Verification of the `NgScrollbar` sync controller
  (`src/projects/ngx-scrollbar/src/scrollbar/ng-scrollbar.ts`)

A shallow embedding of the component's state and of the operations the
specification talks about: the per-axis visibility getters
(`showScrollbarX` / `showScrollbarY`), the sync-state life cycle
(`enable` / `disable` / `update` / `ngAfterViewInit` / `ngOnDestroy`),
the breakpoint subscription, the mutation observer bookkeeping, and the
`throttleTime(200)`-based update/resize streams.

Conventions of the embedding:
* TypeScript `undefined`/`null` references are `Option`; reading a member
  of an absent reference (a `TypeError` at run time) is `Except.error ()`.
* The RxJS subjects are modelled by counters on the state
  (`pulses` counts `_updateObserver.next()` calls, `marks` counts
  `ChangeDetectorRef.markForCheck()` calls); the timed behaviour of
  `throttleTime` is modelled separately as a pure function from a list of
  event times to the list of emitted times.
* Every `MutationObserver` ever constructed is kept in `observers`
  (with its creation index, its `observe` configuration and whether it is
  still connected); `currentObserver` is the component's `_observer` field.
-/

/-- Display mode of the scrollbar: the `shown` input,
    one of `'hover' | 'always' | 'native'`. -/
inductive Shown where
  | hover : Shown
  | always : Shown
  | native : Shown
deriving DecidableEq, Repr

/-- Geometry of a DOM element as read by the visibility getters. -/
structure HTMLElement where
  scrollHeight : Int
  clientHeight : Int
  scrollWidth : Int
  clientWidth : Int
deriving DecidableEq, Repr

/-- A `CdkScrollable`-like reference: `getElementRef().nativeElement`
    may be absent (modelled as `none`). -/
structure ScrollableRef where
  nativeElement : Option HTMLElement
deriving DecidableEq, Repr

/-- The `NgScrollbarView` content child: wraps the custom
    virtual-scroll viewport reference. -/
structure NgScrollbarView where
  virtualScrollViewport : ScrollableRef
deriving DecidableEq, Repr

/-- A `MutationObserver` created by `enable()`: `id` is its creation index,
    `connected` tracks whether `disconnect()` has been called, `target` is the
    element passed to `observe`, and the three flags are the `observe`
    configuration `{subtree, childList, characterData}`. Its callback is
    `() => this.update()`. -/
structure MutObserver where
  id : Nat
  connected : Bool
  target : HTMLElement
  subtree : Bool
  childList : Bool
  characterData : Bool
deriving DecidableEq, Repr

/-- The state of an `NgScrollbar` component instance: the inputs, the
    environment, the view references and the mutable fields. -/
structure NgScrollbar where
  /-- `@Input() trackX` -/
  trackX : Bool
  /-- `@Input() trackY` -/
  trackY : Bool
  /-- `@Input() shown` -/
  shown : Shown
  /-- `@Input() autoUpdate` -/
  autoUpdate : Bool
  /-- truthiness of the `disableOnBreakpoints` input (a breakpoint list
      is configured iff this is `true`) -/
  disableOnBreakpoints : Bool
  /-- `isPlatformBrowser(this._platform)` -/
  isBrowser : Bool
  /-- `@ContentChild(NgScrollbarView)` -/
  customViewPort : Option NgScrollbarView
  /-- `@ViewChild(CdkScrollable)` -/
  scrollViewport : Option ScrollableRef
  /-- the `disabled` field -/
  disabled : Bool
  /-- every `MutationObserver` constructed so far, in creation order -/
  observers : List MutObserver
  /-- the `_observer` field: creation index of the last stored observer -/
  currentObserver : Option Nat
  /-- number of `_updateObserver.next()` calls so far -/
  pulses : Nat
  /-- number of `_changeDetectorRef.markForCheck()` calls so far -/
  marks : Nat
  /-- whether the breakpoint subscription of `ngAfterViewInit` is active -/
  breakpointSubscribed : Bool
  /-- whether `ngOnDestroy` has fired `_unsubscribe$` -/
  destroyed : Bool
deriving DecidableEq, Repr

/-- The component's field initializers, as run by the constructor:
    `trackX = false`, `trackY = true`, `shown = 'native'`,
    `autoUpdate = true`, `disableOnBreakpoints = [HandsetLandscape,
    HandsetPortrait]` (truthy), `disabled = false`, no observer, no
    subscription, no pulse emitted yet. -/
def NgScrollbar.init (isBrowser : Bool) (customViewPort : Option NgScrollbarView)
    (scrollViewport : Option ScrollableRef) : NgScrollbar where
  trackX := false
  trackY := true
  shown := Shown.native
  autoUpdate := true
  disableOnBreakpoints := true
  isBrowser := isBrowser
  customViewPort := customViewPort
  scrollViewport := scrollViewport
  disabled := false
  observers := []
  currentObserver := none
  pulses := 0
  marks := 0
  breakpointSubscribed := false
  destroyed := false

/-- `get view()`: resolves the viewport element.
    `this.customViewPort ? this.customViewPort.virtualScrollViewport
    .getElementRef().nativeElement : this.scrollViewport.getElementRef()
    .nativeElement`. When neither reference object exists, the member
    access on `undefined` throws — modelled as `Except.error ()`. -/
def NgScrollbar.view (s : NgScrollbar) : Except Unit (Option HTMLElement) :=
  match s.customViewPort with
  | some cv => Except.ok cv.virtualScrollViewport.nativeElement
  | none =>
    match s.scrollViewport with
    | some sv => Except.ok sv.nativeElement
    | none => Except.error ()

/-- `showScrollbarY()`: `this.shown === 'always' ||
    this.view.scrollHeight > this.view.clientHeight`. The disjunction
    short-circuits, so `view` is only read when `shown` is not `'always'`;
    reading a size off an absent element throws. -/
def NgScrollbar.showScrollbarY (s : NgScrollbar) : Except Unit Bool :=
  if s.shown = Shown.always then Except.ok true
  else
    match s.view with
    | Except.error e => Except.error e
    | Except.ok none => Except.error ()
    | Except.ok (some v) => Except.ok (v.scrollHeight > v.clientHeight)

/-- `showScrollbarX()`: `this.shown === 'always' ||
    this.view.scrollWidth > this.view.clientWidth`. -/
def NgScrollbar.showScrollbarX (s : NgScrollbar) : Except Unit Bool :=
  if s.shown = Shown.always then Except.ok true
  else
    match s.view with
    | Except.error e => Except.error e
    | Except.ok none => Except.error ()
    | Except.ok (some v) => Except.ok (v.scrollWidth > v.clientWidth)

/-- `update()`: `if (!this.disabled) { this._updateObserver.next(); }`. -/
def NgScrollbar.update (s : NgScrollbar) : NgScrollbar :=
  if s.disabled then s else { s with pulses := s.pulses + 1 }

/-- `enable()`: guarded by `if (this.view)`. On a truthy view it clears
    `disabled`, calls `markForCheck()`, and — when there is no custom
    viewport, `autoUpdate` is set and the platform is a browser —
    constructs a fresh `MutationObserver` over the view with
    `{subtree: true, childList: true, characterData: true}` and stores it
    in `_observer` (overwriting the previous reference without
    disconnecting it). Evaluating the guard throws when the viewport
    reference object is absent. -/
def NgScrollbar.enable (s : NgScrollbar) : Except Unit NgScrollbar :=
  match s.view with
  | Except.error e => Except.error e
  | Except.ok none => Except.ok s
  | Except.ok (some v) =>
    let s1 : NgScrollbar := { s with disabled := false, marks := s.marks + 1 }
    if s.customViewPort.isNone && s.autoUpdate && s.isBrowser then
      Except.ok { s1 with
        observers := s1.observers ++
          [⟨s1.observers.length, true, v, true, true, true⟩],
        currentObserver := some s1.observers.length }
    else Except.ok s1

/-- `disconnect()` on the observer with creation index `i`. -/
def disconnectObs (obs : List MutObserver) (i : Nat) : List MutObserver :=
  obs.map fun o => if o.id = i then { o with connected := false } else o

/-- `disable()`: sets `disabled` and disconnects the observer currently
    stored in `_observer` (only that one), if any. -/
def NgScrollbar.disable (s : NgScrollbar) : NgScrollbar :=
  let s1 : NgScrollbar := { s with disabled := true }
  match s.currentObserver with
  | some i => { s1 with observers := disconnectObs s1.observers i }
  | none => s1

/-- `ngOnDestroy()`: fires and completes `_unsubscribe$` (tearing down the
    breakpoint, update-stream and resize subscriptions) and disconnects the
    observer stored in `_observer`, if any. -/
def NgScrollbar.ngOnDestroy (s : NgScrollbar) : NgScrollbar :=
  let s1 : NgScrollbar :=
    { s with destroyed := true, breakpointSubscribed := false }
  match s.currentObserver with
  | some i => { s1 with observers := disconnectObs s1.observers i }
  | none => s1

/-- The state effect of the `ngAfterViewInit` microtask body: when not
    disabled, either establish the breakpoint subscription (when a
    breakpoint list is configured) or call `enable()` directly. The
    update-stream and resize subscriptions it also sets up are modelled
    separately as timed streams. -/
def NgScrollbar.ngAfterViewInit (s : NgScrollbar) : Except Unit NgScrollbar :=
  if s.disabled then Except.ok s
  else if s.disableOnBreakpoints then
    Except.ok { s with breakpointSubscribed := true }
  else s.enable

/-- Delivery of one `BreakpointState` notification to the breakpoint
    subscription: while the subscription is active (established and not yet
    torn down by `takeUntil(_unsubscribe$)`) the tap runs
    `result.matches ? this.disable() : this.enable()`; otherwise nothing
    happens. -/
def NgScrollbar.onBreakpoint (s : NgScrollbar) (m : Bool) :
    Except Unit NgScrollbar :=
  if s.breakpointSubscribed && !s.destroyed then
    if m then Except.ok s.disable else s.enable
  else Except.ok s

/-- Delivery of a qualifying DOM mutation to the observer with creation
    index `i`: a connected observer's callback runs `this.update()`; a
    disconnected (or never-created) one fires nothing. -/
def NgScrollbar.onMutation (s : NgScrollbar) (i : Nat) : NgScrollbar :=
  if s.observers.any (fun o => o.id == i && o.connected) then s.update else s

/-- The visibility policy exactly as the specification words it
    (`shouldShowAxis(mode, axisTrackEnabled, scrollSize, clientSize)`),
    kept for comparison against the code's getters. -/
def shouldShowAxisSpec (mode : Shown) (axisTrackEnabled : Bool)
    (scrollSize clientSize : Int) : Bool :=
  if !axisTrackEnabled then false
  else if mode = Shown.native then false
  else if mode = Shown.always then true
  else scrollSize > clientSize

/-! ## The `throttleTime(200)` streams

`ngAfterViewInit` pipes both `updateObserver` and the window `resize`
events through RxJS `throttleTime(200)`: a leading-edge throttle that
emits an event when at least the window has elapsed since the previously
emitted one, and drops it otherwise. -/

/-- Leading-edge throttle over a list of event times, carrying the time of
    the last emitted event. -/
def throttleAux (w : Nat) : Option Nat → List Nat → List Nat
  | _, [] => []
  | none, t :: ts => t :: throttleAux w (some t) ts
  | some last, t :: ts =>
    if last + w ≤ t then t :: throttleAux w (some t) ts
    else throttleAux w (some last) ts

/-- `throttleTime(w)` applied to a stream of event times: the times at
    which the downstream tap runs. -/
def throttleEmits (w : Nat) (events : List Nat) : List Nat :=
  throttleAux w none events

/-- Times at which the `updateObserver.pipe(throttleTime(200),
    tap(() => markForCheck()))` stage runs the downstream re-check, for a
    given sequence of update-pulse times. -/
def recheckTimes (pulseTimes : List Nat) : List Nat :=
  throttleEmits 200 pulseTimes

/-- Times at which the resize subscription
    `fromEvent(window, resize).pipe(throttleTime(200), tap(() =>
    this.update()))` invokes `this.update()`, for a given sequence of
    resize-event times. -/
def resizeUpdateCalls (resizeEvents : List Nat) : List Nat :=
  throttleEmits 200 resizeEvents

/-- Effect of a burst of resize events on the component state: the resize
    subscription taps `this.update()` once per throttled event. -/
def NgScrollbar.processResizeEvents (s : NgScrollbar) (events : List Nat) :
    NgScrollbar :=
  (resizeUpdateCalls events).foldl (fun st _ => st.update) s

/-! ## Concrete states used as witnesses and counterexamples -/

/-- An element overflowing vertically and horizontally: 2000 of content in
    a 500 client box on each axis. -/
def elem2000x500 : HTMLElement := ⟨2000, 500, 2000, 500⟩

/-- An element with no overflow: 400 of content in a 500 client box. -/
def elem400x500 : HTMLElement := ⟨400, 500, 400, 500⟩

/-- Component in `'native'` mode over an overflowing viewport, with the
    vertical track enabled. -/
def nativeOverflowState : NgScrollbar :=
  { NgScrollbar.init true none (some ⟨some elem2000x500⟩) with
      shown := Shown.native, trackY := true, trackX := true }

/-- Component in `'hover'` mode over a non-overflowing viewport, with both
    tracks enabled. -/
def hoverState : NgScrollbar :=
  { NgScrollbar.init true none (some ⟨some elem400x500⟩) with
      shown := Shown.hover, trackY := true, trackX := true }

/-- A disabled component (e.g. right after a `disable()` call). -/
def disabledExState : NgScrollbar :=
  { NgScrollbar.init true none (some ⟨some elem2000x500⟩) with
      disabled := true }

/-- An enabled component over a ready viewport. -/
def enabledExState : NgScrollbar :=
  NgScrollbar.init true none (some ⟨some elem2000x500⟩)

/-- A component whose viewport reference objects are both absent, as
    between construction and view initialization. -/
def noViewportState : NgScrollbar := NgScrollbar.init true none none

/-- A component whose default viewport reference exists but whose native
    element is unready. -/
def unreadyViewportState : NgScrollbar :=
  NgScrollbar.init true none (some ⟨none⟩)

/-- A component using a custom viewport (content-child virtual scroll),
    in a browser, with `autoUpdate` on. -/
def customVPState : NgScrollbar :=
  NgScrollbar.init true (some ⟨⟨some elem2000x500⟩⟩) none

/-- A component with the breakpoint subscription established. -/
def bpState : NgScrollbar :=
  { NgScrollbar.init true none (some ⟨some elem2000x500⟩) with
      breakpointSubscribed := true }

/-- Ten update pulses spaced 50ms apart. -/
def tenPulses : List Nat := [0, 50, 100, 150, 200, 250, 300, 350, 400, 450]

/-- The state `enable()` produces when it takes the observer branch:
    `disabled` cleared, one more `markForCheck`, and a fresh connected
    observer over the view element `v`, configured with
    `{subtree: true, childList: true, characterData: true}`, appended and
    stored in `_observer`. -/
def NgScrollbar.enabledWithObserver (s : NgScrollbar) (v : HTMLElement) :
    NgScrollbar :=
  { s with
    disabled := false
    marks := s.marks + 1
    observers := s.observers ++ [⟨s.observers.length, true, v, true, true, true⟩]
    currentObserver := some s.observers.length }

/-- The state `enable()` produces at `customVPState`: disabled cleared and
    one `markForCheck`, nothing else (no observer, no pulse). -/
def enabledCustomVPState : NgScrollbar :=
  { customVPState with disabled := false, marks := customVPState.marks + 1 }

/-! ## Helper lemmas -/

theorem update_disabled_eq (s : NgScrollbar) : s.update.disabled = s.disabled := by
  unfold NgScrollbar.update
  split <;> rfl

theorem update_pulses_of_enabled (s : NgScrollbar) (h : s.disabled = false) :
    s.update.pulses = s.pulses + 1 := by
  simp [NgScrollbar.update, h]

theorem update_of_disabled (s : NgScrollbar) (h : s.disabled = true) :
    s.update = s := by
  simp [NgScrollbar.update, h]

theorem throttleAux_sublist (w : Nat) (acc : Option Nat) (ts : List Nat) :
    List.Sublist (throttleAux w acc ts) ts := by
  induction ts generalizing acc with
  | nil => simp [throttleAux]
  | cons t ts ih =>
    cases acc with
    | none =>
      simpa [throttleAux] using List.Sublist.cons₂ t (ih (some t))
    | some last =>
      by_cases h : last + w ≤ t
      · simpa [throttleAux, h] using List.Sublist.cons₂ t (ih (some t))
      · simpa [throttleAux, h] using List.Sublist.cons t (ih (some last))

theorem throttleAux_chain (w : Nat) (last : Nat) (ts : List Nat) :
    List.Chain (fun a b => a + w ≤ b) last (throttleAux w (some last) ts) := by
  induction ts generalizing last with
  | nil => simp [throttleAux]
  | cons t ts ih =>
    by_cases h : last + w ≤ t
    · rw [show throttleAux w (some last) (t :: ts) =
          t :: throttleAux w (some t) ts from by simp [throttleAux, h]]
      exact List.Chain.cons h (ih t)
    · rw [show throttleAux w (some last) (t :: ts) =
          throttleAux w (some last) ts from by simp [throttleAux, h]]
      exact ih last

theorem throttleEmits_chain (w : Nat) (events : List Nat) :
    List.Chain' (fun a b => a + w ≤ b) (throttleEmits w events) := by
  cases events with
  | nil => simp [throttleEmits, throttleAux]
  | cons t ts =>
    show List.Chain (fun a b => a + w ≤ b) t (throttleAux w (some t) ts)
    exact throttleAux_chain w t ts

theorem throttleEmits_cons (w : Nat) (t : Nat) (ts : List Nat) :
    throttleEmits w (t :: ts) = t :: throttleAux w (some t) ts := rfl

theorem throttleEmits_sublist (w : Nat) (events : List Nat) :
    List.Sublist (throttleEmits w events) events :=
  throttleAux_sublist w none events

theorem foldl_update_pulses (l : List Nat) (s : NgScrollbar)
    (h : s.disabled = false) :
    (l.foldl (fun st _ => st.update) s).pulses = s.pulses + l.length := by
  induction l generalizing s with
  | nil => simp
  | cons t ts ih =>
    have hd : s.update.disabled = false := (update_disabled_eq s).trans h
    simp only [List.foldl_cons, ih s.update hd,
      update_pulses_of_enabled s h, List.length_cons]
    omega

theorem foldl_update_of_disabled (l : List Nat) (s : NgScrollbar)
    (h : s.disabled = true) :
    l.foldl (fun st _ => st.update) s = s := by
  induction l with
  | nil => rfl
  | cons t ts ih =>
    simp only [List.foldl_cons, update_of_disabled s h, ih]

theorem view_of_default (s : NgScrollbar) (sv : ScrollableRef)
    (hcv : s.customViewPort = none) (hsv : s.scrollViewport = some sv) :
    s.view = Except.ok sv.nativeElement := by
  simp [NgScrollbar.view, hcv, hsv]

theorem enable_eq_enabledWithObserver (s : NgScrollbar) (v : HTMLElement)
    (hv : s.view = Except.ok (some v)) (hcv : s.customViewPort = none)
    (hau : s.autoUpdate = true) (hbr : s.isBrowser = true) :
    s.enable = Except.ok (s.enabledWithObserver v) := by
  unfold NgScrollbar.enable
  rw [hv]
  simp [hcv, hau, hbr, NgScrollbar.enabledWithObserver]

theorem disable_disabled (s : NgScrollbar) : s.disable.disabled = true := by
  unfold NgScrollbar.disable
  cases s.currentObserver <;> rfl

/-! ## Claim theorems -/

/-- **C1** (counterexample). The claim states that `showScrollbarX` /
    `showScrollbarY` return `false` whenever `shown = 'native'` or the
    axis track flag is off, and in particular that the evaluation at
    `(native, true, 2000, 500)` is `false`. The code refutes it: in
    `'native'` mode over an overflowing viewport with the tracks on, both
    getters return `true` — the spec-worded policy `shouldShowAxisSpec`
    disagrees with the getters there. -/
theorem showScrollbar_native_counterexample :
    nativeOverflowState.shown = Shown.native ∧
    nativeOverflowState.trackX = true ∧
    nativeOverflowState.trackY = true ∧
    nativeOverflowState.showScrollbarY = Except.ok true ∧
    nativeOverflowState.showScrollbarX = Except.ok true ∧
    shouldShowAxisSpec Shown.native true 2000 500 = false :=
  ⟨rfl, rfl, rfl, rfl, rfl, rfl⟩

/-- **C1** (amended): over a resolved viewport element the getters consult
    neither the `'native'` display mode nor the `trackX` / `trackY` flags:
    each returns `true` exactly when `shown = 'always'` or the axis's
    scroll size strictly exceeds its client size — so in `'native'` mode
    an overflowing axis still reports `true`. -/
theorem showScrollbar_mode_characterization (s : NgScrollbar)
    (v : HTMLElement) (hv : s.view = Except.ok (some v)) :
    s.showScrollbarY = Except.ok
      (decide (s.shown = Shown.always) ||
        decide (v.scrollHeight > v.clientHeight)) ∧
    s.showScrollbarX = Except.ok
      (decide (s.shown = Shown.always) ||
        decide (v.scrollWidth > v.clientWidth)) := by
  constructor <;> by_cases h : s.shown = Shown.always <;>
    simp [NgScrollbar.showScrollbarY, NgScrollbar.showScrollbarX, h, hv]

/-- Witness for the amended C1 at a concrete `'native'`-mode state. -/
theorem showScrollbar_mode_characterization_witness :
    nativeOverflowState.showScrollbarY = Except.ok
      (decide (nativeOverflowState.shown = Shown.always) ||
        decide (elem2000x500.scrollHeight > elem2000x500.clientHeight)) ∧
    nativeOverflowState.showScrollbarX = Except.ok
      (decide (nativeOverflowState.shown = Shown.always) ||
        decide (elem2000x500.scrollWidth > elem2000x500.clientWidth)) :=
  showScrollbar_mode_characterization nativeOverflowState elem2000x500 rfl

/-- **C2** (confirmed). With the axis tracks enabled, both getters return
    `true` in `'always'` mode independent of any sizes (the disjunction
    short-circuits before reading the view), and in `'hover'` mode each
    returns `true` exactly when that axis's scroll size strictly exceeds
    its client size. -/
theorem showScrollbar_always_hover (s : NgScrollbar) (v : HTMLElement)
    (htX : s.trackX = true) (htY : s.trackY = true) :
    (s.shown = Shown.always →
      s.showScrollbarY = Except.ok true ∧
      s.showScrollbarX = Except.ok true) ∧
    (s.shown = Shown.hover → s.view = Except.ok (some v) →
      (s.showScrollbarY = Except.ok true ↔
        v.scrollHeight > v.clientHeight) ∧
      (s.showScrollbarX = Except.ok true ↔
        v.scrollWidth > v.clientWidth)) := by
  constructor
  · intro h
    constructor <;> simp [NgScrollbar.showScrollbarY,
      NgScrollbar.showScrollbarX, h]
  · intro h hv
    have hna : ¬(s.shown = Shown.always) := by simp [h]
    constructor <;> simp [NgScrollbar.showScrollbarY,
      NgScrollbar.showScrollbarX, hna, hv]

/-- Witness for C2 at a `'hover'`-mode state over a non-overflowing
    viewport: the getters come out `false`, matching the spec's example
    `shouldShowAxis(hover, true, 400, 500) == false`. -/
theorem showScrollbar_always_hover_witness :
    (hoverState.showScrollbarY = Except.ok true ↔
      elem400x500.scrollHeight > elem400x500.clientHeight) ∧
    (hoverState.showScrollbarX = Except.ok true ↔
      elem400x500.scrollWidth > elem400x500.clientWidth) :=
  (showScrollbar_always_hover hoverState elem400x500 rfl rfl).2 rfl rfl

/-- **C3** (counterexample). The claim states the sync state starts with
    `disabled = true` at controller initialization; the constructor's field
    initializer is `disabled = false`. -/
theorem init_disabled_counterexample :
    (NgScrollbar.init true none none).disabled = false ∧
    ¬(NgScrollbar.init true none none).disabled = true :=
  ⟨rfl, by decide⟩

/-- **C3** (amended): at controller initialization the sync state has
    `disabled = false` — custom-scrollbar mode is on from construction
    (which is precisely what lets `ngAfterViewInit`'s `!this.disabled`
    check proceed to enabling / breakpoint subscription). -/
theorem init_disabled_false (b : Bool) (cv : Option NgScrollbarView)
    (sv : Option ScrollableRef) :
    (NgScrollbar.init b cv sv).disabled = false := rfl

/-- **C4** (confirmed). While `disabled = true` — in particular right after
    any `disable()` call — `update()` is a no-op: the state is unchanged
    and no pulse is emitted. Once `disabled = false`, `update()` pushes
    exactly one pulse into the update stream and changes nothing else. -/
theorem update_noop_or_single_pulse (s : NgScrollbar) :
    (s.disabled = true → s.update = s) ∧
    s.disable.update = s.disable ∧
    (s.disabled = false → s.update = { s with pulses := s.pulses + 1 }) := by
  refine ⟨fun h => update_of_disabled s h, ?_, fun h => ?_⟩
  · exact update_of_disabled s.disable (disable_disabled s)
  · simp [NgScrollbar.update, h]

/-- Witness for C4 at concrete disabled and enabled states. -/
theorem update_noop_or_single_pulse_witness :
    disabledExState.update = disabledExState ∧
    enabledExState.update =
      { enabledExState with pulses := enabledExState.pulses + 1 } :=
  ⟨(update_noop_or_single_pulse disabledExState).1 rfl,
   (update_noop_or_single_pulse enabledExState).2.2 rfl⟩

/-- **C5** (counterexample). The claim states a burst of update pulses
    within one ≈200ms window yields exactly one downstream re-check, firing
    no sooner than the window after the burst's last event. The stream is
    actually piped through a leading-edge `throttleTime(200)`: ten pulses
    50ms apart (last at 450) produce three re-checks, at 0, 200 and 400 —
    more than one, and the first fires before the burst settles, not at
    least 200ms after its last event. -/
theorem throttle_burst_counterexample :
    recheckTimes tenPulses = [0, 200, 400] ∧
    ¬(recheckTimes tenPulses).length = 1 ∧
    ¬(∀ t ∈ recheckTimes tenPulses, 450 + 200 ≤ t) := by decide

/-- **C5** (amended): the update stream is throttled on the leading edge
    with a 200ms window: the first pulse of a burst triggers a re-check
    immediately, every re-check time is the time of some pulse (a sublist
    of the pulse times), consecutive re-checks are at least 200ms apart,
    and every nonempty burst yields at least one re-check. -/
theorem throttle_burst_behavior (pulseTimes : List Nat)
    (h : pulseTimes ≠ []) :
    (recheckTimes pulseTimes).head? = pulseTimes.head? ∧
    List.Sublist (recheckTimes pulseTimes) pulseTimes ∧
    List.Chain' (fun a b => a + 200 ≤ b) (recheckTimes pulseTimes) ∧
    recheckTimes pulseTimes ≠ [] := by
  refine ⟨?_, throttleEmits_sublist 200 pulseTimes,
    throttleEmits_chain 200 pulseTimes, ?_⟩ <;>
    cases pulseTimes with
    | nil => simp at h
    | cons t ts => simp [recheckTimes, throttleEmits_cons]

/-- Witness for the amended C5 at the ten-pulse burst. -/
theorem throttle_burst_behavior_witness :
    (recheckTimes tenPulses).head? = tenPulses.head? ∧
    List.Sublist (recheckTimes tenPulses) tenPulses ∧
    List.Chain' (fun a b => a + 200 ≤ b) (recheckTimes tenPulses) ∧
    recheckTimes tenPulses ≠ [] :=
  throttle_burst_behavior tenPulses (by decide)

/-- **C6** (confirmed). When a breakpoint list is configured,
    `ngAfterViewInit` establishes the breakpoint subscription (once, at
    startup); while that subscription is active and not torn down, a
    notification with `matches = true` routes to `disable()` (forcing
    `disabled = true`) and one with `matches = false` routes to `enable()`
    (clearing `disabled` whenever the viewport resolves); after teardown
    every notification is ignored, and `ngOnDestroy` deactivates the
    subscription. -/
theorem breakpoint_subscription (s : NgScrollbar) :
    (s.disabled = false → s.disableOnBreakpoints = true →
      s.ngAfterViewInit =
        Except.ok { s with breakpointSubscribed := true }) ∧
    (s.breakpointSubscribed = true → s.destroyed = false →
      (s.onBreakpoint true = Except.ok s.disable ∧
        s.disable.disabled = true) ∧
      (s.onBreakpoint false = s.enable ∧
        ∀ v : HTMLElement, s.view = Except.ok (some v) →
          ∃ t, s.enable = Except.ok t ∧ t.disabled = false)) ∧
    (s.destroyed = true → ∀ m, s.onBreakpoint m = Except.ok s) ∧
    s.ngOnDestroy.breakpointSubscribed = false := by
  refine ⟨fun h1 h2 => ?_, fun hs hd => ⟨⟨?_, disable_disabled s⟩, ?_, ?_⟩,
    fun h m => ?_, ?_⟩
  · simp [NgScrollbar.ngAfterViewInit, h1, h2]
  · simp [NgScrollbar.onBreakpoint, hs, hd]
  · simp [NgScrollbar.onBreakpoint, hs, hd]
  · intro v hv
    unfold NgScrollbar.enable
    rw [hv]
    by_cases hc : s.customViewPort.isNone && s.autoUpdate && s.isBrowser
    · simp only [hc, if_true]
      exact ⟨_, rfl, rfl⟩
    · simp only [hc, if_false]
      exact ⟨_, rfl, rfl⟩
  · simp [NgScrollbar.onBreakpoint, h]
  · unfold NgScrollbar.ngOnDestroy
    cases s.currentObserver <;> rfl

/-- Witness for C6 at a concrete state with the subscription active. -/
theorem breakpoint_subscription_witness :
    bpState.onBreakpoint true = Except.ok bpState.disable ∧
    bpState.disable.disabled = true ∧
    bpState.onBreakpoint false = bpState.enable :=
  ⟨((breakpoint_subscription bpState).2.1 rfl rfl).1.1,
   ((breakpoint_subscription bpState).2.1 rfl rfl).1.2,
   ((breakpoint_subscription bpState).2.1 rfl rfl).2.1⟩

/-- **C7** (counterexample). The claim states that with a missing or
    unready viewport, `enable()` is a no-op raising no fault. When the
    viewport reference object itself is absent — the state between
    construction and view initialization, e.g. under an early `disabled`
    input binding — evaluating the `if (this.view)` guard dereferences
    `undefined` and throws instead. -/
theorem enable_missing_viewport_counterexample :
    noViewportState.customViewPort = none ∧
    noViewportState.scrollViewport = none ∧
    noViewportState.enable = Except.error () :=
  ⟨rfl, rfl, rfl⟩

/-- **C7** (amended): when the viewport reference object exists but
    resolves to no element (unready), `enable()` is a fault-free no-op
    returning the state unchanged; only an absent reference object makes
    the guard itself throw. -/
theorem enable_unready_viewport_noop (s : NgScrollbar)
    (h : s.view = Except.ok none) : s.enable = Except.ok s := by
  unfold NgScrollbar.enable
  rw [h]

/-- Witness for the amended C7: a present scrollable reference with an
    unready element. -/
theorem enable_unready_viewport_noop_witness :
    unreadyViewportState.enable = Except.ok unreadyViewportState :=
  enable_unready_viewport_noop unreadyViewportState rfl

/-- **C8** (counterexample). The claim states that whenever `enable()`
    succeeds with auto-update configured in a mutation-capable
    environment, it begins observing the viewport and schedules an update
    pulse on entry. With a custom viewport present the observer branch is
    skipped entirely (it is guarded by `!this.customViewPort`), and no
    branch of `enable()` pushes an update pulse — only `markForCheck` is
    called. -/
theorem enable_custom_viewport_counterexample :
    customVPState.autoUpdate = true ∧
    customVPState.isBrowser = true ∧
    customVPState.view = Except.ok (some elem2000x500) ∧
    customVPState.enable = Except.ok enabledCustomVPState ∧
    enabledCustomVPState.observers = [] ∧
    enabledCustomVPState.pulses = customVPState.pulses ∧
    enabledCustomVPState.marks = customVPState.marks + 1 :=
  ⟨rfl, rfl, rfl, rfl, rfl, rfl, rfl⟩

/-- **C8** (amended): when `enable()` runs over a resolved viewport element
    with **no custom viewport**, auto-update configured and a browser
    platform, it appends exactly one new connected `MutationObserver` over
    the view element — configured for subtree, child-list and
    character-data mutations, each delivery of which runs `update()` and
    adds one pulse — stores it in `_observer`, marks the view for
    change-detection re-check, and pushes no pulse itself on entry. -/
theorem enable_starts_observation (s : NgScrollbar) (v : HTMLElement)
    (hv : s.view = Except.ok (some v)) (hcv : s.customViewPort = none)
    (hau : s.autoUpdate = true) (hbr : s.isBrowser = true) :
    s.enable = Except.ok (s.enabledWithObserver v) ∧
    (s.enabledWithObserver v).observers =
      s.observers ++ [⟨s.observers.length, true, v, true, true, true⟩] ∧
    (s.enabledWithObserver v).currentObserver = some s.observers.length ∧
    (s.enabledWithObserver v).disabled = false ∧
    (s.enabledWithObserver v).pulses = s.pulses ∧
    (s.enabledWithObserver v).marks = s.marks + 1 ∧
    (s.enabledWithObserver v).onMutation s.observers.length =
      (s.enabledWithObserver v).update ∧
    ((s.enabledWithObserver v).onMutation s.observers.length).pulses =
      s.pulses + 1 := by
  have hobserve : (s.enabledWithObserver v).onMutation s.observers.length =
      (s.enabledWithObserver v).update := by
    unfold NgScrollbar.onMutation
    simp [NgScrollbar.enabledWithObserver]
  refine ⟨enable_eq_enabledWithObserver s v hv hcv hau hbr, rfl, rfl, rfl,
    rfl, rfl, hobserve, ?_⟩
  rw [hobserve]
  exact update_pulses_of_enabled _ rfl

/-- Witness for the amended C8 at a concrete enabled state. -/
theorem enable_starts_observation_witness :
    enabledExState.enable =
      Except.ok (enabledExState.enabledWithObserver elem2000x500) ∧
    (enabledExState.enabledWithObserver elem2000x500).observers =
      enabledExState.observers ++
        [⟨enabledExState.observers.length, true, elem2000x500,
          true, true, true⟩] ∧
    (enabledExState.enabledWithObserver elem2000x500).currentObserver =
      some enabledExState.observers.length ∧
    (enabledExState.enabledWithObserver elem2000x500).disabled = false ∧
    (enabledExState.enabledWithObserver elem2000x500).pulses =
      enabledExState.pulses ∧
    (enabledExState.enabledWithObserver elem2000x500).marks =
      enabledExState.marks + 1 ∧
    (enabledExState.enabledWithObserver elem2000x500).onMutation
      enabledExState.observers.length =
      (enabledExState.enabledWithObserver elem2000x500).update ∧
    ((enabledExState.enabledWithObserver elem2000x500).onMutation
      enabledExState.observers.length).pulses = enabledExState.pulses + 1 :=
  enable_starts_observation enabledExState elem2000x500 rfl rfl rfl rfl

/-- **C9** (counterexample). The claim states every window resize event
    triggers `update()` through the shared throttled path. Resize events
    are first throttled on a 200ms window of their own: of two resize
    events 50ms apart, only the first invokes `update()`, so an enabled
    component gains one pulse, not two. -/
theorem resize_every_event_counterexample :
    resizeUpdateCalls [0, 50] = [0] ∧
    (enabledExState.processResizeEvents [0, 50]).pulses =
      enabledExState.pulses + 1 := by
  exact ⟨rfl, rfl⟩

/-- **C9** (amended): resize events reach `update()` through a leading-edge
    200ms throttle of their own — the first resize of a burst gets through
    immediately, surviving calls are at least 200ms apart and each is an
    actual resize time — and each surviving event invokes the very same
    `update()` as mutation and explicit pulses: it feeds the shared update
    stream (one pulse per surviving event when enabled) and is a no-op
    while disabled. -/
theorem resize_updates_via_shared_path (events : List Nat)
    (s : NgScrollbar) (h : events ≠ []) :
    (resizeUpdateCalls events).head? = events.head? ∧
    List.Sublist (resizeUpdateCalls events) events ∧
    List.Chain' (fun a b => a + 200 ≤ b) (resizeUpdateCalls events) ∧
    (s.disabled = false →
      (s.processResizeEvents events).pulses =
        s.pulses + (resizeUpdateCalls events).length) ∧
    (s.disabled = true → s.processResizeEvents events = s) := by
  refine ⟨?_, throttleEmits_sublist 200 events, throttleEmits_chain 200 events,
    fun hd => foldl_update_pulses _ s hd,
    fun hd => foldl_update_of_disabled _ s hd⟩
  cases events with
  | nil => simp at h
  | cons t ts => simp [resizeUpdateCalls, throttleEmits_cons]

/-- Witness for the amended C9: three resize events, two of which survive
    the throttle, give an enabled component exactly two pulses and a
    disabled one none. -/
theorem resize_updates_via_shared_path_witness :
    (enabledExState.processResizeEvents [0, 50, 300]).pulses =
      enabledExState.pulses + 2 ∧
    disabledExState.processResizeEvents [0, 50, 300] = disabledExState :=
  ⟨(resize_updates_via_shared_path [0, 50, 300] enabledExState
      (by decide)).2.2.2.1 rfl,
   (resize_updates_via_shared_path [0, 50, 300] disabledExState
      (by decide)).2.2.2.2 rfl⟩

/-- **C10** (confirmed). Calling `enable()` twice with no intervening
    `disable()` — auto-update on, browser platform, no custom viewport,
    starting from fresh observer bookkeeping — creates a second observer
    while leaving the first connected, and stores only the second in
    `_observer`; a subsequent `disable()` or `ngOnDestroy()` disconnects
    only that second observer, so the first is never disconnected. -/
theorem enable_twice_leaks_observer (s : NgScrollbar) (v : HTMLElement)
    (hobs : s.observers = []) (hcur : s.currentObserver = none)
    (hcv : s.customViewPort = none) (hau : s.autoUpdate = true)
    (hbr : s.isBrowser = true) (sv : ScrollableRef)
    (hsv : s.scrollViewport = some sv) (hne : sv.nativeElement = some v) :
    s.enable = Except.ok (s.enabledWithObserver v) ∧
    (s.enabledWithObserver v).enable =
      Except.ok ((s.enabledWithObserver v).enabledWithObserver v) ∧
    ((s.enabledWithObserver v).enabledWithObserver v).observers.map
      (fun o => (o.id, o.connected)) = [(0, true), (1, true)] ∧
    ((s.enabledWithObserver v).enabledWithObserver v).currentObserver =
      some 1 ∧
    ((s.enabledWithObserver v).enabledWithObserver v).disable.observers.map
      (fun o => (o.id, o.connected)) = [(0, true), (1, false)] ∧
    ((s.enabledWithObserver v).enabledWithObserver
      v).ngOnDestroy.observers.map
      (fun o => (o.id, o.connected)) = [(0, true), (1, false)] := by
  have hv : s.view = Except.ok (some v) := by
    rw [view_of_default s sv hcv hsv, hne]
  have hv1 : (s.enabledWithObserver v).view = Except.ok (some v) := by
    rw [view_of_default (s.enabledWithObserver v) sv _ _, hne]
    · simp [NgScrollbar.enabledWithObserver, hcv]
    · simp [NgScrollbar.enabledWithObserver, hsv]
  refine ⟨enable_eq_enabledWithObserver s v hv hcv hau hbr,
    enable_eq_enabledWithObserver (s.enabledWithObserver v) v hv1
      (by simp [NgScrollbar.enabledWithObserver, hcv])
      (by simp [NgScrollbar.enabledWithObserver, hau])
      (by simp [NgScrollbar.enabledWithObserver, hbr]), ?_, ?_, ?_, ?_⟩
  · simp [NgScrollbar.enabledWithObserver, hobs]
  · simp [NgScrollbar.enabledWithObserver, hobs]
  · simp [NgScrollbar.enabledWithObserver, NgScrollbar.disable,
      disconnectObs, hobs]
  · simp [NgScrollbar.enabledWithObserver, NgScrollbar.ngOnDestroy,
      disconnectObs, hobs]

/-- Witness for C10 at a concrete fresh enabled component. -/
theorem enable_twice_leaks_observer_witness :
    enabledExState.enable =
      Except.ok (enabledExState.enabledWithObserver elem2000x500) ∧
    (enabledExState.enabledWithObserver elem2000x500).enable =
      Except.ok ((enabledExState.enabledWithObserver
        elem2000x500).enabledWithObserver elem2000x500) ∧
    ((enabledExState.enabledWithObserver
      elem2000x500).enabledWithObserver elem2000x500).observers.map
      (fun o => (o.id, o.connected)) = [(0, true), (1, true)] ∧
    ((enabledExState.enabledWithObserver
      elem2000x500).enabledWithObserver elem2000x500).currentObserver =
      some 1 ∧
    ((enabledExState.enabledWithObserver
      elem2000x500).enabledWithObserver elem2000x500).disable.observers.map
      (fun o => (o.id, o.connected)) = [(0, true), (1, false)] ∧
    ((enabledExState.enabledWithObserver
      elem2000x500).enabledWithObserver
      elem2000x500).ngOnDestroy.observers.map
      (fun o => (o.id, o.connected)) = [(0, true), (1, false)] :=
  enable_twice_leaks_observer enabledExState elem2000x500 rfl rfl rfl rfl
    rfl ⟨some elem2000x500⟩ rfl rfl
